import Mathlib

/-!
Shallow embedding of the state-reconciliation core of the meross_lan
Home-Assistant integration.

The definitions below are translated from the Python sources:

* custom_components/meross_lan/meross_entity.py
  (MerossEntity, MerossNumericEntity, MerossBinaryEntity, MerossToggle)
* custom_components/meross_lan/climate.py (MtsClimate.flush_state)
* custom_components/meross_lan/devices/diffuser.py
  (MLDiffuserLight, the Appliance.Control.Diffuser.Sensor handler)

Modelling conventions:

* Python numbers appearing in entity values are modelled as rationals, so
  true division is exact division in the field of rationals.
* The optional value None is modelled with Option; a Python attribute of
  type T-or-None becomes Option T.
* A state flush (the call to flush_state, which propagates the reconciled
  state to the host) is recorded in a ghost counter flushCount.  The real
  flush_state forwards to the host write only while the entity is loaded
  (the _hass_connected guard); that guard is host plumbing outside the
  reconciliation core, so the counter records the calls themselves.
* Only the attributes that take part in the reconciliation logic are kept
  (cached state, availability flag, cached values); naming, registry and
  logging attributes of the Python classes play no role in the claims.
  The identity bookkeeping of the constructor (channel, entitykey, id and
  the owning manager dictionary) is modelled separately further below.
* Python dicts carrying payloads are modelled as association lists in
  insertion order; dict lookup is association-list lookup.
-/

/-- Ghost record of the base entity state handled by
MerossEntity (meross_entity.py).  _attr_state is the cached HA state,
available the availability flag, flushCount the ghost flush counter. -/
structure MerossEntity where
  attr_state : Option String
  available : Bool
  flushCount : Nat
deriving DecidableEq, Repr

/-- MerossEntity.flush_state: commit a state change to HA (counted). -/
def MerossEntity.flush_state (e : MerossEntity) : MerossEntity :=
  { e with flushCount := e.flushCount + 1 }

/-- The state/availability part of MerossEntity.__init__: the availability
flag starts as available or _attr_available (a ClassVar that is False in the
base class) or (state is not None); the cached state starts at the given
state and no flush has happened yet. -/
def MerossEntity.init (state : Option String) (available : Bool) : MerossEntity :=
  { attr_state := state
    available := available || state.isSome
    flushCount := 0 }

/-- MerossEntity.set_available: only raises the flag, no flush. -/
def MerossEntity.set_available (e : MerossEntity) : MerossEntity :=
  { e with available := true }

/-- MerossEntity.set_unavailable: clear the cached state; if the entity was
available, drop the flag and flush. -/
def MerossEntity.set_unavailable (e : MerossEntity) : MerossEntity :=
  let e := { e with attr_state := none }
  if e.available then ({ e with available := false }).flush_state else e

/-- MerossEntity.update_state: update the entity state and flush it if
changed. -/
def MerossEntity.update_state (e : MerossEntity) (state : Option String) :
    MerossEntity :=
  if e.attr_state ≠ state then ({ e with attr_state := state }).flush_state
  else e

/-- MerossNumericEntity (meross_entity.py): adds the protocol-side
device_value, the host-side native_value and the class-level device_scale
used to convert between the two. -/
structure MerossNumericEntity extends MerossEntity where
  device_scale : ℚ
  device_value : Option ℚ
  native_value : Option ℚ
deriving DecidableEq, Repr

/-- flush_state inherited by MerossNumericEntity. -/
def MerossNumericEntity.flush_state (e : MerossNumericEntity) :
    MerossNumericEntity :=
  { e with toMerossEntity := e.toMerossEntity.flush_state }

/-- MerossNumericEntity.__init__: native_value is None when device_value is
None and device_value / device_scale otherwise; the base initializer is
called with available = (device_value is not None) and state = None. -/
def MerossNumericEntity.init (device_scale : ℚ) (device_value : Option ℚ) :
    MerossNumericEntity :=
  { device_scale := device_scale
    device_value := device_value
    native_value := device_value.map (fun v => v / device_scale)
    toMerossEntity := MerossEntity.init none device_value.isSome }

/-- MerossNumericEntity.set_unavailable: clear both cached values, then run
the base set_unavailable. -/
def MerossNumericEntity.set_unavailable (e : MerossNumericEntity) :
    MerossNumericEntity :=
  { e with device_value := none
           native_value := none
           toMerossEntity := e.toMerossEntity.set_unavailable }

/-- MerossNumericEntity.update_device_value: when the incoming device value
differs from the cached one, store it, recompute native_value through
device_scale and flush. -/
def MerossNumericEntity.update_device_value (e : MerossNumericEntity)
    (device_value : ℚ) : MerossNumericEntity :=
  if e.device_value ≠ some device_value then
    ({ e with device_value := some device_value
              native_value := some (device_value / e.device_scale) }).flush_state
  else e

/-- MerossNumericEntity.update_native_value: compare and set at the native
layer only; device_value is untouched. -/
def MerossNumericEntity.update_native_value (e : MerossNumericEntity)
    (native_value : ℚ) : MerossNumericEntity :=
  if e.native_value ≠ some native_value then
    ({ e with native_value := some native_value }).flush_state
  else e

/-- MerossBinaryEntity (meross_entity.py): adds the is_on cache.  The
protocol onoff values are integers and may be absent, so the cache is an
optional integer (Python truthiness: 1 is on, 0 is off). -/
structure MerossBinaryEntity extends MerossEntity where
  is_on : Option Int
deriving DecidableEq, Repr

/-- flush_state inherited by MerossBinaryEntity. -/
def MerossBinaryEntity.flush_state (e : MerossBinaryEntity) :
    MerossBinaryEntity :=
  { e with toMerossEntity := e.toMerossEntity.flush_state }

/-- MerossBinaryEntity.__init__: is_on starts at the onoff argument and the
base initializer is called with available = (onoff is not None). -/
def MerossBinaryEntity.init (onoff : Option Int) : MerossBinaryEntity :=
  { is_on := onoff
    toMerossEntity := MerossEntity.init none onoff.isSome }

/-- MerossBinaryEntity.set_unavailable: clear is_on, then the base
set_unavailable. -/
def MerossBinaryEntity.set_unavailable (e : MerossBinaryEntity) :
    MerossBinaryEntity :=
  { e with is_on := none
           toMerossEntity := e.toMerossEntity.set_unavailable }

/-- MerossBinaryEntity.update_onoff: compare and set on the boolean-like
field, flush when changed. -/
def MerossBinaryEntity.update_onoff (e : MerossBinaryEntity)
    (onoff : Option Int) : MerossBinaryEntity :=
  if e.is_on ≠ onoff then ({ e with is_on := onoff }).flush_state else e

/-- MerossToggle.async_request_onoff: send a SET request through the
transport; only when the transport acknowledges (async_request_ack returned
True) is the local cache reconciled via update_onoff.  The acknowledge
outcome of the external transport is passed in as ack. -/
def MerossToggle.async_request_onoff (e : MerossBinaryEntity) (onoff : Int)
    (ack : Bool) : MerossBinaryEntity :=
  if ack then e.update_onoff (some onoff) else e

/-!
MtsClimate (climate.py).  The claims concern the preset derivation inside
MtsClimate.flush_state, which reads the cached raw device mode _mts_mode
through the static MTS_MODE_TO_PRESET_MAP (a subclass ClassVar, modelled as
a per-record association list with the Python-dict unique keys kept in
insertion order).  The call to super().flush_state() is the counted base
flush; schedule.flush_state() on the attached calendar entity is counted in
its own ghost counter.
-/

/-- The MtsClimate fields that take part in the preset derivation of
flush_state, together with ghost flush counters. -/
structure MtsClimate extends MerossEntity where
  mts_mode_to_preset_map : List (Option Int × String)
  mts_mode : Option Int
  preset_mode : Option String
  schedule_flush_count : Nat
deriving DecidableEq, Repr

/-- The corresponding part of MtsClimate.__init__: preset_mode and
_mts_mode start at None, the base starts unavailable with no cached
state. -/
def MtsClimate.init (mts_mode_to_preset_map : List (Option Int × String)) :
    MtsClimate :=
  { mts_mode_to_preset_map := mts_mode_to_preset_map
    mts_mode := none
    preset_mode := none
    schedule_flush_count := 0
    toMerossEntity := MerossEntity.init none false }

/-- MtsClimate.flush_state: preset_mode is recomputed from the raw mode via
MTS_MODE_TO_PRESET_MAP.get(self._mts_mode) and then the base flush and the
schedule flush run. -/
def MtsClimate.flush_state (e : MtsClimate) : MtsClimate :=
  { e with preset_mode := e.mts_mode_to_preset_map.lookup e.mts_mode
           toMerossEntity := e.toMerossEntity.flush_state
           schedule_flush_count := e.schedule_flush_count + 1 }

/-!
MLDiffuserLight (devices/diffuser.py).  Payload dicts are association lists
from the protocol field names to integers.
-/

/-- Protocol field name mc.KEY_ONOFF. -/
def KEY_ONOFF : String := "onoff"

/-- Protocol field name mc.KEY_MODE. -/
def KEY_MODE : String := "mode"

/-- Protocol field name mc.KEY_RGB. -/
def KEY_RGB : String := "rgb"

/-- Protocol field name mc.KEY_LUMINANCE. -/
def KEY_LUMINANCE : String := "luminance"

/-- Modelled from the spec: the constant mc.DIFFUSER_LIGHT_MODE_COLOR of
merossclient.const, which is not under src/.  It is the raw light mode that
selects a fixed RGB color; its numeric value is irrelevant to every claim
below. -/
def DIFFUSER_LIGHT_MODE_COLOR : Int := 1

/-- Python dict item assignment d[k] = v on an insertion-ordered dict:
overwrite the value in place when the key exists, append otherwise. -/
def dictSet (d : List (String × Int)) (k : String) (v : Int) :
    List (String × Int) :=
  if (d.lookup k).isSome then
    d.map (fun p => if p.1 = k then (k, v) else p)
  else d ++ [(k, v)]

/-- Python list subscript l[i]: non-negative indices from the front,
negative indices from the back, IndexError (modelled as none) outside. -/
def pyListGet (l : List String) (i : Int) : Option String :=
  if 0 ≤ i then l.get? i.toNat
  else if (-i).toNat ≤ l.length then l.get? (l.length - (-i).toNat)
  else none

/-- Modelled from the spec: helper _sat_1_100 of light.py (not under src/),
used for the luminance channel; per its name and the 1..100 luminance range
of the protocol it saturates into [1, 100]. -/
def sat_1_100 (v : Int) : Int := max 1 (min 100 v)

/-- Modelled from the spec: helper _rgb_to_int of light.py (not under
src/): packs an (r, g, b) triple into the single protocol integer. -/
def rgb_to_int (rgb : Int × Int × Int) : Int :=
  rgb.1 * 65536 + rgb.2.1 * 256 + rgb.2.2

/-- MLDiffuserLight: a toggle-like light entity carrying the cached _light
payload dict, the derived effect name and the static effect_list
(mc.DIFFUSER_LIGHT_MODE_LIST). -/
structure MLDiffuserLight extends MerossBinaryEntity where
  light : List (String × Int)
  effect : Option String
  effect_list : List String
deriving DecidableEq, Repr

/-- MLDiffuserLight._inherited_parse_light (devices/diffuser.py): when the
payload carries a mode, the COLOR mode clears the effect and any other mode
indexes effect_list; an out-of-range index raises IndexError which is
caught, logged and turned into effect = None. -/
def MLDiffuserLight.inherited_parse_light (e : MLDiffuserLight)
    (payload : List (String × Int)) : MLDiffuserLight :=
  match payload.lookup KEY_MODE with
  | none => e
  | some mode =>
    if mode = DIFFUSER_LIGHT_MODE_COLOR then { e with effect := none }
    else
      match pyListGet e.effect_list mode with
      | some eff => { e with effect := some eff }
      | none => { e with effect := none }

/-- flush_state inherited by MLDiffuserLight. -/
def MLDiffuserLight.flush_state (e : MLDiffuserLight) : MLDiffuserLight :=
  { e with toMerossBinaryEntity := e.toMerossBinaryEntity.flush_state }

/-- Modelled from the spec: MLLightBase._parse_light (light.py is not under
src/).  Per spec section 4.2 the light reconciler compares the incoming
payload dict with the cached _light dict by full equality and applies it
only when changed: the dict is cached, is_on follows the onoff key, the
subclass hook _inherited_parse_light derives the effect, and one flush is
triggered. -/
def MLDiffuserLight.parse_light (e : MLDiffuserLight)
    (payload : List (String × Int)) : MLDiffuserLight :=
  if e.light ≠ payload then
    let e := e.inherited_parse_light payload
    ({ e with light := payload
              is_on := payload.lookup KEY_ONOFF }).flush_state
  else e

/-- async_request_onoff as inherited by MLDiffuserLight from MerossToggle,
lifted to the extended record. -/
def MLDiffuserLight.async_request_onoff (e : MLDiffuserLight) (onoff : Int)
    (ack : Bool) : MLDiffuserLight :=
  { e with toMerossBinaryEntity :=
      MerossToggle.async_request_onoff e.toMerossBinaryEntity onoff ack }

/-- The keyword arguments of LightEntity.async_turn_on that
MLDiffuserLight.async_turn_on inspects. -/
structure LightTurnOnArgs where
  rgb_color : Option (Int × Int × Int)
  brightness : Option Int
  effect : Option String
deriving DecidableEq, Repr

/-- MLDiffuserLight.async_turn_on (devices/diffuser.py).  With no keyword
arguments it delegates to async_request_onoff(1).  Otherwise it builds a
copy of the cached _light dict (onoff forced to 1, rgb / mode from the
rgb_color argument, luminance from brightness with the always-set rule,
mode from the effect argument via effect_list.index which raises ValueError
when absent) and only a positive transport acknowledgment makes it
reconcile the local cache through _parse_light.  The returned pair is the
entity state after the call together with the uncaught exception, if any
(the Python method mutates no local state when it raises). -/
def MLDiffuserLight.async_turn_on (e : MLDiffuserLight)
    (args : LightTurnOnArgs) (ack : Bool) :
    MLDiffuserLight × Option String :=
  if args.rgb_color = none ∧ args.brightness = none ∧ args.effect = none then
    (e.async_request_onoff 1 ack, none)
  else
    let light := dictSet e.light KEY_ONOFF 1
    let light :=
      match args.rgb_color with
      | some rgb =>
        dictSet (dictSet light KEY_RGB (rgb_to_int rgb)) KEY_MODE
          DIFFUSER_LIGHT_MODE_COLOR
      | none => light
    let light :=
      match args.brightness with
      | some b => dictSet light KEY_LUMINANCE (sat_1_100 ((b * 100).fdiv 255))
      | none =>
        if (light.lookup KEY_LUMINANCE).getD 0 = 0 then
          dictSet light KEY_LUMINANCE 100
        else light
    match args.effect with
    | some eff =>
      match e.effect_list.indexOf? eff with
      | some i =>
        let light := dictSet light KEY_MODE (Int.ofNat i)
        if ack then (e.parse_light light, none) else (e, none)
      | none => (e, some "ValueError")
    | none => if ack then (e.parse_light light, none) else (e, none)

/-!
The Appliance.Control.Diffuser.Sensor handler
(_handle_Appliance_Control_Diffuser_Sensor in devices/diffuser.py).

The handler walks the fixed key tuple (humidity, temperature); for a key
present in the payload it runs

    try:
        entities[key].update_native_value(payload[key][VALUE] / 10)
    except KeyError:
        DIFFUSER_SENSOR_CLASS_MAP[key](device, None,
                                       device_value=payload[key][VALUE] / 10)

device.entities is the manager dictionary keyed by entity id; the sensors
are created with channel None and entitykey equal to the payload key, so
their id is the key itself.  The except branch evaluates
payload[key][VALUE] again, so a missing VALUE field raises KeyError a
second time, outside any handler; the model returns the device entity dict
after the call together with the uncaught exception, if any.  The
fresh sensor classes (sensor.py, not under src/) inherit the
MerossNumericEntity initializer with the class-default device_scale 1
declared in meross_entity.py.
-/

/-- Protocol field name mc.KEY_HUMIDITY. -/
def KEY_HUMIDITY : String := "humidity"

/-- Protocol field name mc.KEY_TEMPERATURE. -/
def KEY_TEMPERATURE : String := "temperature"

/-- Protocol field name mc.KEY_VALUE. -/
def KEY_VALUE : String := "value"

/-- The device entity dictionary as seen by the sensor handler: entity ids
mapped to numeric entities. -/
abbrev SensorEntities := List (String × MerossNumericEntity)

/-- Python dict item assignment for the device entity dictionary. -/
def dictSetEntity (d : SensorEntities) (k : String)
    (e : MerossNumericEntity) : SensorEntities :=
  if (d.lookup k).isSome then
    d.map (fun p => if p.1 = k then (k, e) else p)
  else d ++ [(k, e)]

/-- One iteration of the for loop of the diffuser sensor handler for one
key, returning the entity dictionary and the uncaught exception, if any. -/
def diffuserSensorStep (entities : SensorEntities)
    (payload : List (String × List (String × ℚ))) (key : String) :
    SensorEntities × Option String :=
  match payload.lookup key with
  | none => (entities, none)
  | some item =>
    match entities.lookup key with
    | some e =>
      match item.lookup KEY_VALUE with
      | some v =>
        (dictSetEntity entities key (e.update_native_value (v / 10)), none)
      | none => (entities, some "KeyError")
    | none =>
      match item.lookup KEY_VALUE with
      | some v =>
        (entities ++ [(key, MerossNumericEntity.init 1 (some (v / 10)))], none)
      | none => (entities, some "KeyError")

/-- _handle_Appliance_Control_Diffuser_Sensor: iterate the two keys in
tuple order; an uncaught exception aborts the loop (and the dispatch of the
remaining keys). -/
def handle_Appliance_Control_Diffuser_Sensor (entities : SensorEntities)
    (payload : List (String × List (String × ℚ))) :
    SensorEntities × Option String :=
  match diffuserSensorStep entities payload KEY_HUMIDITY with
  | (entities1, some err) => (entities1, some err)
  | (entities1, none) => diffuserSensorStep entities1 payload KEY_TEMPERATURE

/-!
Entity identity (MerossEntity.__init__ in meross_entity.py).

The constructor assertions and the manager registration are:

    assert channel is not None or (entitykey is not None)
    id = (channel if entitykey is None
          else entitykey if channel is None else f"{channel}_{entitykey}")
    assert manager.entities.get(id) is None
    ...
    manager.entities[id] = self

channel is an integer or string; both render into the id string, so the
model uses the string form.  A firing assertion is an AssertionError.
-/

/-- The identity attributes fixed at entity creation. -/
structure EntityId where
  channel : Option String
  entitykey : Option String
deriving DecidableEq, Repr

/-- The id string derived from (channel, entitykey); none when both are
None (which the first constructor assertion rejects). -/
def derivedId (channel entitykey : Option String) : Option String :=
  match channel, entitykey with
  | none, none => none
  | some c, none => some c
  | none, some k => some k
  | some c, some k => some (c ++ "_" ++ k)

/-- The owning manager as seen by the constructor: the entities dictionary
keyed by the derived id. -/
structure EntityManager where
  entities : List (String × EntityId)
deriving DecidableEq, Repr

/-- The identity part of MerossEntity.__init__: the two assertions and the
registration of the new entity under its derived id. -/
def MerossEntity.init_register (m : EntityManager)
    (channel entitykey : Option String) : Except String EntityManager :=
  match derivedId channel entitykey with
  | none =>
    Except.error "AssertionError: provide at least channel or entitykey"
  | some id =>
    if (m.entities.lookup id).isSome then
      Except.error "AssertionError: id is not unique inside manager.entities"
    else
      Except.ok ⟨m.entities ++ [(id, ⟨channel, entitykey⟩)]⟩

/-- Well-formedness of a manager entity dictionary: dictionary keys are
pairwise distinct and every entry is stored under the id derived from its
own (channel, entitykey). -/
@[reducible] def EntityManager.wf (m : EntityManager) : Prop :=
  (m.entities.map Prod.fst).Nodup ∧
  ∀ p ∈ m.entities, derivedId p.2.channel p.2.entitykey = some p.1

/-- The scale invariant of spec section 8, stated in the words of the spec:
native_value == device_value / scale (with both sides None together). -/
def NumInv (e : MerossNumericEntity) : Prop :=
  e.native_value = e.device_value.map (fun v => v / e.device_scale)

/-!
Claim theorems.
-/

/-- Claim C1: for every entity and every sequence of update calls
(update_state, update_onoff, update_device_value), a call triggers a state
flush if and only if the candidate value differs from the immediately
preceding cached value; when the values are equal the call is a no-op and
the cached state is unchanged.  Stated per call over an arbitrary current
state, which covers every position of every call sequence. -/
theorem C1_update_flush_iff_changed :
    (∀ (e : MerossEntity) (v : Option String),
      ((e.update_state v).flushCount = e.flushCount + 1 ↔ e.attr_state ≠ v) ∧
      (e.attr_state = v → e.update_state v = e)) ∧
    (∀ (e : MerossNumericEntity) (v : ℚ),
      ((e.update_device_value v).flushCount = e.flushCount + 1 ↔
        e.device_value ≠ some v) ∧
      (e.device_value = some v → e.update_device_value v = e)) ∧
    (∀ (e : MerossBinaryEntity) (v : Option Int),
      ((e.update_onoff v).flushCount = e.flushCount + 1 ↔ e.is_on ≠ v) ∧
      (e.is_on = v → e.update_onoff v = e)) := by
  refine ⟨fun e v => ⟨?_, fun h => ?_⟩, fun e v => ⟨?_, fun h => ?_⟩,
    fun e v => ⟨?_, fun h => ?_⟩⟩
  · by_cases h : e.attr_state = v <;>
      simp [MerossEntity.update_state, MerossEntity.flush_state, h]
  · simp [MerossEntity.update_state, h]
  · by_cases h : e.device_value = some v <;>
      simp [MerossNumericEntity.update_device_value,
        MerossNumericEntity.flush_state, MerossEntity.flush_state, h]
  · simp [MerossNumericEntity.update_device_value, h]
  · by_cases h : e.is_on = v <;>
      simp [MerossBinaryEntity.update_onoff, MerossBinaryEntity.flush_state,
        MerossEntity.flush_state, h]
  · simp [MerossBinaryEntity.update_onoff, h]

/-- Witness for C1 at concrete entities: a changed value flushes, an equal
value leaves the entity untouched. -/
theorem C1_update_flush_iff_changed_witness :
    ((MerossEntity.init none false).update_state (some "on")).flushCount =
      (MerossEntity.init none false).flushCount + 1 ∧
    (MerossEntity.init (some "on") false).update_state (some "on") =
      MerossEntity.init (some "on") false ∧
    (MerossNumericEntity.init 10 (some 42)).update_device_value 42 =
      MerossNumericEntity.init 10 (some 42) ∧
    ((MerossBinaryEntity.init none).update_onoff (some 1)).flushCount =
      (MerossBinaryEntity.init none).flushCount + 1 := by
  refine ⟨?_, ?_, ?_, ?_⟩
  · exact (C1_update_flush_iff_changed.1 _ _).1.mpr
      (by simp [MerossEntity.init])
  · exact (C1_update_flush_iff_changed.1 _ _).2 rfl
  · exact (C1_update_flush_iff_changed.2.1 _ _).2 rfl
  · exact (C1_update_flush_iff_changed.2.2 _ _).1.mpr
      (by simp [MerossBinaryEntity.init, MerossEntity.init])

/-- Claim C8: calling update_state (or update_onoff) twice in a row with
the same value triggers at most one flush; the second call changes neither
the cached state nor the flush count (it returns the state unchanged). -/
theorem C8_update_idempotent :
    (∀ (e : MerossEntity) (v : Option String),
      (e.update_state v).update_state v = e.update_state v ∧
      (e.update_state v).flushCount ≤ e.flushCount + 1) ∧
    (∀ (e : MerossBinaryEntity) (v : Option Int),
      (e.update_onoff v).update_onoff v = e.update_onoff v ∧
      (e.update_onoff v).flushCount ≤ e.flushCount + 1) := by
  refine ⟨fun e v => ⟨?_, ?_⟩, fun e v => ⟨?_, ?_⟩⟩
  · by_cases h : e.attr_state = v <;>
      simp [MerossEntity.update_state, MerossEntity.flush_state, h]
  · by_cases h : e.attr_state = v <;>
      simp [MerossEntity.update_state, MerossEntity.flush_state, h]
  · by_cases h : e.is_on = v <;>
      simp [MerossBinaryEntity.update_onoff, MerossBinaryEntity.flush_state,
        MerossEntity.flush_state, h]
  · by_cases h : e.is_on = v <;>
      simp [MerossBinaryEntity.update_onoff, MerossBinaryEntity.flush_state,
        MerossEntity.flush_state, h]

/-- Claim C10: update_native_value modifies only native_value (with a flush
exactly when the native value changes); device_value, device_scale, the
availability flag and the cached base state are left unchanged. -/
theorem C10_update_native_value_frame :
    ∀ (e : MerossNumericEntity) (v : ℚ),
      (e.update_native_value v).device_value = e.device_value ∧
      (e.update_native_value v).device_scale = e.device_scale ∧
      (e.update_native_value v).available = e.available ∧
      (e.update_native_value v).attr_state = e.attr_state ∧
      (e.update_native_value v).native_value =
        (if e.native_value = some v then e.native_value else some v) ∧
      (e.update_native_value v).flushCount =
        (if e.native_value = some v then e.flushCount else e.flushCount + 1) := by
  intro e v
  by_cases h : e.native_value = some v <;>
    simp [MerossNumericEntity.update_native_value,
      MerossNumericEntity.flush_state, MerossEntity.flush_state, h]

/-- Counterexample to claim C2 as stated: at the concrete entity built with
scale 10 and device value 42, updated once at the native layer to 5 and
then hit by update_device_value(42), the call returns with native_value = 5
while device_value / scale = 42/10, so the invariant does not hold after
that update_device_value call. -/
theorem C2_scale_invariant_counterexample :
    ¬ NumInv (((MerossNumericEntity.init 10 (some 42)).update_native_value
        5).update_device_value 42) := by
  norm_num [NumInv, MerossNumericEntity.init, MerossEntity.init,
    MerossNumericEntity.update_native_value,
    MerossNumericEntity.update_device_value,
    MerossNumericEntity.flush_state, MerossEntity.flush_state]

/-- Claim C2 as amended: the scale invariant native_value = device_value /
device_scale holds after construction (for any device value, in particular
a non-null one) and after every update_device_value call that observes a
changed device value; a call observing an unchanged device value is a no-op
and therefore preserves the invariant only when it already held (an
intervening update_native_value can have broken it). -/
theorem C2_scale_invariant_amended :
    (∀ (s : ℚ) (dv : Option ℚ), NumInv (MerossNumericEntity.init s dv)) ∧
    (∀ (e : MerossNumericEntity) (v : ℚ),
      (NumInv e ∨ e.device_value ≠ some v) →
      NumInv (e.update_device_value v)) := by
  constructor
  · intro s dv
    simp [NumInv, MerossNumericEntity.init]
  · intro e v h
    by_cases hv : e.device_value = some v
    · rcases h with h | h
      · simpa [MerossNumericEntity.update_device_value, hv] using h
      · exact absurd hv h
    · simp [NumInv, MerossNumericEntity.update_device_value, hv,
        MerossNumericEntity.flush_state, MerossEntity.flush_state]

/-- Witness for C2 as amended: a changing update_device_value call on a
concrete entity re-establishes the invariant. -/
theorem C2_scale_invariant_amended_witness :
    (MerossNumericEntity.init 10 (some 42)).device_value ≠ some 7 ∧
    NumInv ((MerossNumericEntity.init 10 (some 42)).update_device_value 7) :=
  ⟨by norm_num [MerossNumericEntity.init],
   C2_scale_invariant_amended.2 _ 7
     (Or.inr (by norm_num [MerossNumericEntity.init]))⟩

/-- Claim C3: on a previously available numeric entity, set_unavailable
clears device_value, native_value and the cached base state to null, drops
the availability flag with exactly one flush, and a second consecutive
set_unavailable call is a no-op (no flush, state unchanged): the
availability transition is edge-triggered. -/
theorem C3_set_unavailable_clears_and_edge_triggers :
    ∀ e : MerossNumericEntity, e.available = true →
      (e.set_unavailable).device_value = none ∧
      (e.set_unavailable).native_value = none ∧
      (e.set_unavailable).attr_state = none ∧
      (e.set_unavailable).available = false ∧
      (e.set_unavailable).flushCount = e.flushCount + 1 ∧
      (e.set_unavailable).set_unavailable = e.set_unavailable := by
  intro e h
  simp [MerossNumericEntity.set_unavailable, MerossEntity.set_unavailable,
    MerossEntity.flush_state, h]

/-- Witness for C3: the spec scenario, a numeric entity with scale 10 and
device value 42 (hence native value 42/10) that is available; one
set_unavailable clears both values and records exactly one flush, a second
one is a no-op. -/
theorem C3_set_unavailable_witness :
    (MerossNumericEntity.init 10 (some 42)).available = true ∧
    (((MerossNumericEntity.init 10 (some 42)).set_unavailable).device_value =
        none ∧
      ((MerossNumericEntity.init 10 (some 42)).set_unavailable).native_value =
        none ∧
      ((MerossNumericEntity.init 10 (some 42)).set_unavailable).attr_state =
        none ∧
      ((MerossNumericEntity.init 10 (some 42)).set_unavailable).available =
        false ∧
      ((MerossNumericEntity.init 10 (some 42)).set_unavailable).flushCount =
        (MerossNumericEntity.init 10 (some 42)).flushCount + 1 ∧
      ((MerossNumericEntity.init 10
          (some 42)).set_unavailable).set_unavailable =
        (MerossNumericEntity.init 10 (some 42)).set_unavailable) :=
  ⟨rfl, C3_set_unavailable_clears_and_edge_triggers _ rfl⟩

/-- Counterexample to claim C4 as stated: update_onoff does not touch the
availability flag, so reconciling onoff = 1 on a toggle entity constructed
unavailable (onoff = None) leaves it unavailable. -/
theorem C4_toggle_scenario_counterexample :
    ¬ ((MerossBinaryEntity.init none).update_onoff (some 1)).available =
        true := by
  decide

/-- Claim C4 as amended: for a toggle entity starting unavailable,
reconciling onoff = 1 sets is_on to 1 (truthy) with exactly one flush,
reconciling onoff = 1 again is a no-op, and reconciling onoff = 0 sets
is_on to 0 with exactly one further flush; update_onoff never modifies the
availability flag, so the entity stays unavailable throughout (the
Unavailable to Available transition is not performed by update_onoff but by
an explicit set_available). -/
theorem C4_toggle_scenario_amended :
    (∀ (e : MerossBinaryEntity) (v : Option Int),
      (e.update_onoff v).available = e.available) ∧
    ((MerossBinaryEntity.init none).available = false ∧
      ((MerossBinaryEntity.init none).update_onoff (some 1)).is_on =
        some 1 ∧
      ((MerossBinaryEntity.init none).update_onoff (some 1)).flushCount =
        1 ∧
      ((MerossBinaryEntity.init none).update_onoff (some 1)).update_onoff
          (some 1) =
        (MerossBinaryEntity.init none).update_onoff (some 1) ∧
      ((((MerossBinaryEntity.init none).update_onoff (some 1)).update_onoff
            (some 1)).update_onoff (some 0)).is_on = some 0 ∧
      ((((MerossBinaryEntity.init none).update_onoff (some 1)).update_onoff
            (some 1)).update_onoff (some 0)).flushCount = 2 ∧
      ((((MerossBinaryEntity.init none).update_onoff (some 1)).update_onoff
            (some 1)).update_onoff (some 0)).available = false) := by
  constructor
  · intro e v
    by_cases h : e.is_on = v <;>
      simp [MerossBinaryEntity.update_onoff, MerossBinaryEntity.flush_state,
        MerossEntity.flush_state, h]
  · decide

/-- Claim C5: an outbound toggle or light command mutates the local cached
state only after a positive transport acknowledgment; when async_request_ack
reports false, the cached state (is_on, the _light dict, the derived
effect) is unchanged by the operation. -/
theorem C5_no_mutation_without_ack :
    (∀ (e : MerossBinaryEntity) (onoff : Int),
      MerossToggle.async_request_onoff e onoff false = e) ∧
    (∀ (e : MLDiffuserLight) (args : LightTurnOnArgs),
      (e.async_turn_on args false).1 = e) := by
  constructor
  · intro e onoff
    rfl
  · intro e args
    unfold MLDiffuserLight.async_turn_on
    split
    · simp [MLDiffuserLight.async_request_onoff,
        MerossToggle.async_request_onoff]
    · cases args.effect with
      | none => simp
      | some eff =>
        cases h2 : e.effect_list.indexOf? eff <;> simp [h2]

/-- Claim C6: on flush, a thermostat climate entity derives its preset mode
from the raw device mode by the static MTS_MODE_TO_PRESET_MAP lookup; with
the map (0 -> custom, 1 -> comfort), raw mode 1 yields preset comfort and
the unmapped raw mode 9 yields no preset (None) without erroring. -/
theorem C6_preset_mode_lookup :
    (∀ e : MtsClimate,
      (e.flush_state).preset_mode =
        e.mts_mode_to_preset_map.lookup e.mts_mode) ∧
    ({ MtsClimate.init [(some 0, "custom"), (some 1, "comfort")] with
        mts_mode := some 1 }.flush_state).preset_mode = some "comfort" ∧
    ({ MtsClimate.init [(some 0, "custom"), (some 1, "comfort")] with
        mts_mode := some 9 }.flush_state).preset_mode = none := by
  refine ⟨fun e => rfl, ?_, ?_⟩ <;> decide

/-- Helper for C7: one loop iteration of the diffuser sensor handler raises
no uncaught exception when the item for its key, if present, carries the
value field. -/
theorem diffuserSensorStep_no_error (entities : SensorEntities)
    (payload : List (String × List (String × ℚ))) (key : String)
    (h : (payload.lookup key).all
      (fun item => (item.lookup KEY_VALUE).isSome) = true) :
    (diffuserSensorStep entities payload key).2 = none := by
  unfold diffuserSensorStep
  cases hp : payload.lookup key with
  | none => rfl
  | some item =>
    rw [hp] at h
    simp only [Option.all_some] at h
    cases he : entities.lookup key with
    | some e =>
      cases hv : item.lookup KEY_VALUE with
      | some v => simp [hv]
      | none => rw [hv] at h; simp at h
    | none =>
      cases hv : item.lookup KEY_VALUE with
      | some v => simp [hv]
      | none => rw [hv] at h; simp at h

/-- Counterexample to claim C7 as stated: in a payload whose humidity item
is malformed (missing the value field) and whose temperature item is well
formed, the KeyError raised again inside the except branch is uncaught:
the handler aborts with the exception and the sibling temperature item is
never processed (no temperature entity is created). -/
theorem C7_dispatch_isolation_counterexample :
    (handle_Appliance_Control_Diffuser_Sensor []
        [(KEY_HUMIDITY, [("lmTime", 0)]),
         (KEY_TEMPERATURE, [(KEY_VALUE, 50)])]).2 = some "KeyError" ∧
    ((handle_Appliance_Control_Diffuser_Sensor []
        [(KEY_HUMIDITY, [("lmTime", 0)]),
         (KEY_TEMPERATURE, [(KEY_VALUE, 50)])]).1).lookup KEY_TEMPERATURE =
      none := by
  constructor <;> rfl

/-- Claim C7 as amended: the try/except of the diffuser sensor handler
isolates only the missing-entity case (lazy creation of the sensor), not
malformed items; an item missing the value field raises an uncaught
KeyError that aborts the loop and the remaining keys.  When every item
present in the payload carries the value field the handler processes all
present keys without any exception, lazily creating absent entities. -/
theorem C7_dispatch_isolation_amended :
    ∀ (entities : SensorEntities)
      (payload : List (String × List (String × ℚ))),
      (payload.lookup KEY_HUMIDITY).all
        (fun item => (item.lookup KEY_VALUE).isSome) = true →
      (payload.lookup KEY_TEMPERATURE).all
        (fun item => (item.lookup KEY_VALUE).isSome) = true →
      (handle_Appliance_Control_Diffuser_Sensor entities payload).2 =
        none := by
  intro entities payload h1 h2
  unfold handle_Appliance_Control_Diffuser_Sensor
  have s1 := diffuserSensorStep_no_error entities payload KEY_HUMIDITY h1
  rcases hr : diffuserSensorStep entities payload KEY_HUMIDITY with ⟨ents1, err1⟩
  rw [hr] at s1
  simp only at s1
  subst s1
  simpa using diffuserSensorStep_no_error ents1 payload KEY_TEMPERATURE h2

/-- Witness for C7 as amended: a payload with well-formed humidity and
temperature items is fully processed with no exception. -/
theorem C7_dispatch_isolation_amended_witness :
    ([(KEY_HUMIDITY, [(KEY_VALUE, (7 : ℚ))]),
        (KEY_TEMPERATURE, [(KEY_VALUE, 50)])].lookup KEY_HUMIDITY).all
      (fun item => (item.lookup KEY_VALUE).isSome) = true ∧
    ([(KEY_HUMIDITY, [(KEY_VALUE, (7 : ℚ))]),
        (KEY_TEMPERATURE, [(KEY_VALUE, 50)])].lookup KEY_TEMPERATURE).all
      (fun item => (item.lookup KEY_VALUE).isSome) = true ∧
    (handle_Appliance_Control_Diffuser_Sensor []
        [(KEY_HUMIDITY, [(KEY_VALUE, (7 : ℚ))]),
         (KEY_TEMPERATURE, [(KEY_VALUE, 50)])]).2 = none :=
  ⟨rfl, rfl,
    C7_dispatch_isolation_amended []
      [(KEY_HUMIDITY, [(KEY_VALUE, (7 : ℚ))]),
       (KEY_TEMPERATURE, [(KEY_VALUE, 50)])] rfl rfl⟩

/-- Helper for C9: a failed dictionary lookup means no entry carries that
key. -/
theorem keys_ne_of_lookup_eq_none {β : Type} :
    ∀ (l : List (String × β)) (a : String), l.lookup a = none →
      ∀ p ∈ l, p.1 ≠ a := by
  intro l a
  induction l with
  | nil =>
    intro _ p hp
    cases hp
  | cons hd tl ih =>
    intro h p hp
    obtain ⟨k, v⟩ := hd
    cases hb : a == k with
    | true => simp [List.lookup, hb] at h
    | false =>
      simp only [List.lookup, hb] at h
      rcases List.mem_cons.mp hp with rfl | hp'
      · intro he
        have ha : a = k := by simpa using he.symm
        rw [ha] at hb
        simp at hb
      · exact ih h p hp'

/-- Claim C9: the constructor requires at least one of channel and
entitykey to be non-null and the derived identity to be absent from the
owning manager entity dictionary; under these preconditions neither
assertion fires and registration succeeds, the manager well-formedness is
preserved, and in a well-formed manager two stored entities with the same
(channel, entitykey) pair are the same entry, i.e. identities are unique. -/
theorem C9_entity_identity_unique :
    (∀ (m : EntityManager) (c k : Option String) (i : String),
      derivedId c k = some i → m.entities.lookup i = none →
      ∃ m', MerossEntity.init_register m c k = Except.ok m') ∧
    (∀ (m : EntityManager) (c k : Option String) (m' : EntityManager),
      m.wf → MerossEntity.init_register m c k = Except.ok m' → m'.wf) ∧
    (∀ m : EntityManager, m.wf →
      ∀ p ∈ m.entities, ∀ q ∈ m.entities, p.2 = q.2 → p = q) := by
  refine ⟨?_, ?_, ?_⟩
  · intro m c k i hd hl
    refine ⟨⟨m.entities ++ [(i, ⟨c, k⟩)]⟩, ?_⟩
    unfold MerossEntity.init_register
    split
    · rename_i hnone
      rw [hd] at hnone
      cases hnone
    · rename_i j hj
      rw [hd] at hj
      injection hj with hj
      subst hj
      rw [hl]
      simp
  · intro m c k m' hwf hok
    unfold MerossEntity.init_register at hok
    split at hok
    · cases hok
    · rename_i i hd
      split at hok
      · cases hok
      · rename_i hns
        have hl : m.entities.lookup i = none := by
          cases hx : m.entities.lookup i with
          | none => rfl
          | some y => rw [hx] at hns; simp at hns
        simp only [Except.ok.injEq] at hok
        subst hok
        constructor
        · rw [List.map_append]
          rw [List.nodup_append]
          refine ⟨hwf.1, List.nodup_singleton _, ?_⟩
          intro a ha hb
          simp only [List.map_cons, List.map_nil, List.mem_singleton] at hb
          subst hb
          rcases List.mem_map.mp ha with ⟨p, hp, hpa⟩
          exact keys_ne_of_lookup_eq_none m.entities a hl p hp hpa
        · intro p hp
          rcases List.mem_append.mp hp with hp' | hp'
          · exact hwf.2 p hp'
          · rcases List.mem_singleton.mp hp' with rfl
            exact hd
  · intro m hwf p hp q hq hpq
    have h1 := hwf.2 p hp
    have h2 := hwf.2 q hq
    rw [hpq] at h1
    rw [h2] at h1
    have hfst : p.1 = q.1 := (Option.some.injEq _ _ ▸ h1).symm
    exact List.inj_on_of_nodup_map hwf.1 hp hq hfst

/-- Witness for C9: a concrete manager holding the entity (channel 0,
entitykey light) accepts a new entity with channel 1 and no entitykey; the
extended manager is well formed and equal stored identities coincide. -/
theorem C9_entity_identity_unique_witness :
    (∃ m', MerossEntity.init_register
        ⟨[("0_light", ⟨some "0", some "light"⟩)]⟩ (some "1") none =
      Except.ok m') ∧
    EntityManager.wf ⟨[("0_light", ⟨some "0", some "light"⟩),
      ("1", ⟨some "1", none⟩)]⟩ ∧
    (("0_light", (⟨some "0", some "light"⟩ : EntityId)) =
      ("0_light", (⟨some "0", some "light"⟩ : EntityId))) := by
  refine ⟨?_, ?_, ?_⟩
  · exact C9_entity_identity_unique.1
      ⟨[("0_light", ⟨some "0", some "light"⟩)]⟩ (some "1") none "1" rfl rfl
  · exact C9_entity_identity_unique.2.1
      ⟨[("0_light", ⟨some "0", some "light"⟩)]⟩ (some "1") none _
      (by constructor <;> decide) rfl
  · exact C9_entity_identity_unique.2.2
      ⟨[("0_light", ⟨some "0", some "light"⟩)]⟩
      (by constructor <;> decide) _ (by simp) _ (by simp) rfl
